import Mathlib

/-!
Formal model of the product-search and EPD risk-screening service.

The development shallowly embeds the Python sources of the service:

* `rule_engine.py`        — the pure risk rule engine (`evaluate_product`);
* `search_engine.py`      — semantic retrieval (`semantic_search`,
  `_passes_filters`) and the LLM rank refiner (`llm_refine_results`);
* `product_indexer.py`    — catalog lookup (`get_product_by_id`);
* `epd_api.py`            — the batch-scan path (`_detect_cert_state`,
  `_find_product_by_id`, `create_scan`);
* `app.py`                — the search endpoint's pagination arithmetic.

Python's duck-typed values are modelled by the `PyVal` type below; dicts are
association lists with the first binding of a key authoritative.  Code that
can raise is embedded in `Except PyError`.  Floating-point similarity scores
are abstracted to an arbitrary linear order (the retrieval logic only ever
compares scores); external collaborators (the embedding provider and the
generative provider) are modelled by their returned data.
-/

/-! ## Python value model -/

mutual

/-- A Python runtime value, as far as the service manipulates them:
`None`, booleans, integers, strings, lists and string-keyed dicts. -/
inductive PyVal where
  | none
  | bool (b : Bool)
  | int (n : Int)
  | str (s : String)
  | list (xs : PyList)
  | dict (kvs : PyDict)

/-- A Python list of `PyVal`s (spelled out so that all recursion over
values stays structural). -/
inductive PyList where
  | nil
  | cons (hd : PyVal) (tl : PyList)

/-- A Python dict with string keys.  Keys are unique in the values the
service builds; lookup takes the first binding. -/
inductive PyDict where
  | nil
  | cons (k : String) (v : PyVal) (tl : PyDict)

end

/-- Emptiness test for `PyList` (Python truthiness of a list). -/
def PyList.isEmpty : PyList → Bool
  | .nil => true
  | .cons _ _ => false

/-- Emptiness test for `PyDict` (Python truthiness of a dict). -/
def PyDict.isEmpty : PyDict → Bool
  | .nil => true
  | .cons _ _ _ => false

/-- Python `d.get(k)` with default `None`: first binding of `k`, else `None`. -/
def PyDict.get : PyDict → String → PyVal
  | .nil, _ => .none
  | .cons k v tl, key => if k = key then v else tl.get key

/-- Python `k in d`. -/
def PyDict.hasKey : PyDict → String → Bool
  | .nil, _ => false
  | .cons k _ tl, key => k = key || tl.hasKey key

/-- Convert a Lean list of values into a `PyList`. -/
def PyList.ofList : List PyVal → PyList
  | [] => .nil
  | x :: xs => .cons x (PyList.ofList xs)

/-- Convert a Lean association list into a `PyDict`. -/
def PyDict.ofList : List (String × PyVal) → PyDict
  | [] => .nil
  | (k, v) :: xs => .cons k v (PyDict.ofList xs)

/-- Python truthiness (`bool(v)`). -/
def truthy : PyVal → Bool
  | .none => false
  | .bool b => b
  | .int n => n != 0
  | .str s => s != ""
  | .list xs => !xs.isEmpty
  | .dict kvs => !kvs.isEmpty

/-- Python `a or b`: `a` when truthy, else `b`. -/
def pyOr (a b : PyVal) : PyVal :=
  if truthy a then a else b

mutual

/-- Python `str(v)`.  Strings render as themselves; containers render their
items by `repr`, as Python does. -/
def pyStr : PyVal → String
  | .none => "None"
  | .bool b => if b then "True" else "False"
  | .int n => toString n
  | .str s => s
  | .list xs => "[" ++ pyStrItems xs ++ "]"
  | .dict kvs => "\x7b" ++ pyStrEntries kvs ++ "\x7d"

/-- Python `repr(v)` (strings gain quotes; otherwise as `str`). -/
def pyQuoted : PyVal → String
  | .none => "None"
  | .bool b => if b then "True" else "False"
  | .int n => toString n
  | .str s => "\x27" ++ s ++ "\x27"
  | .list xs => "[" ++ pyStrItems xs ++ "]"
  | .dict kvs => "\x7b" ++ pyStrEntries kvs ++ "\x7d"

/-- Comma-separated item reprs of a Python list. -/
def pyStrItems : PyList → String
  | .nil => ""
  | .cons x .nil => pyQuoted x
  | .cons x xs => pyQuoted x ++ ", " ++ pyStrItems xs

/-- Comma-separated `key: value` reprs of a Python dict. -/
def pyStrEntries : PyDict → String
  | .nil => ""
  | .cons k v .nil => "\x27" ++ k ++ "\x27: " ++ pyQuoted v
  | .cons k v kvs => "\x27" ++ k ++ "\x27: " ++ pyQuoted v ++ ", " ++ pyStrEntries kvs

end

mutual

/-- Python `==` on values: `True == 1`, numeric equality across `bool`/`int`,
structural equality on containers, `False` across unrelated types. -/
def pyEq : PyVal → PyVal → Bool
  | .none, .none => true
  | .bool a, .bool b => a == b
  | .bool a, .int n => (if a then (1 : Int) else 0) == n
  | .int n, .bool b => n == (if b then (1 : Int) else 0)
  | .int a, .int b => a == b
  | .str a, .str b => a == b
  | .list a, .list b => pyEqItems a b
  | .dict a, .dict b => pyEqEntries a b
  | _, _ => false

/-- Elementwise Python `==` on lists. -/
def pyEqItems : PyList → PyList → Bool
  | .nil, .nil => true
  | .cons a as, .cons b bs => pyEq a b && pyEqItems as bs
  | _, _ => false

/-- Entrywise Python `==` on dicts (in the order stored). -/
def pyEqEntries : PyDict → PyDict → Bool
  | .nil, .nil => true
  | .cons k v t, .cons k2 v2 t2 => k == k2 && pyEq v v2 && pyEqEntries t t2
  | _, _ => false

end

/-! ## Character-level string helpers (Python `str` methods) -/

/-- ASCII lower-casing of one character, as Python `str.lower` acts on the
ASCII range used throughout the service. -/
def lowerChar (c : Char) : Char :=
  if 65 ≤ c.toNat ∧ c.toNat ≤ 90 then Char.ofNat (c.toNat + 32) else c

/-- Python `str.lower()`. -/
def pyLower (s : String) : String :=
  ⟨s.data.map lowerChar⟩

/-- Whitespace recognised by Python `str.strip()`. -/
def isSpaceChar (c : Char) : Bool :=
  c == ' ' || c == '\t' || c == '\n' || c == '\r' || c == '\x0b' || c == '\x0c'

/-- Python `str.strip()`: drop whitespace from both ends. -/
def pyStrip (s : String) : String :=
  ⟨((s.data.dropWhile isSpaceChar).reverse.dropWhile isSpaceChar).reverse⟩

/-- Python `s.startswith(pre)`. -/
def pyStartsWith (s pre : String) : Bool :=
  pre.data.isPrefixOf s.data

/-- Python `needle in hay` on strings: substring containment. -/
def strContainsSub (hay needle : String) : Bool :=
  (List.range (hay.data.length + 1)).any
    (fun i => needle.data.isPrefixOf (hay.data.drop i))

/-- Python `sep.join(parts)` for a space separator. -/
def joinSpace : List String → String
  | [] => ""
  | [s] => s
  | s :: rest => s ++ " " ++ joinSpace rest

/-! ## Exceptions -/

/-- The Python exceptions the embedded code can raise. -/
inductive PyError where
  | attributeError
  | keyError
  | typeError
deriving DecidableEq, Repr

/-- Whether an `Except` computation succeeded. -/
def exceptIsOk {α : Type} : Except PyError α → Bool
  | .ok _ => true
  | .error _ => false

/-- Whether a value is a Python string. -/
def pyIsStr : PyVal → Bool
  | .str _ => true
  | _ => false

/-! ## Rule engine (`rule_engine.py`)

`_is_absolute_url` calls `.strip()` on its argument, so a non-string raises
`AttributeError`; the embedding returns `Except` accordingly. -/

/-- Embeds `_is_absolute_url` (rule_engine.py lines 15-17):
`lowered = url.strip().lower(); return lowered.startswith("http://") or
lowered.startswith("https://")`. -/
def is_absolute_url : PyVal → Except PyError Bool
  | .str url =>
    let lowered := pyLower (pyStrip url)
    .ok (pyStartsWith lowered "http://" || pyStartsWith lowered "https://")
  | _ => .error .attributeError

/-- The standing manual-verification advisory appended on every path. -/
def manualAdvisory : String := "Please manually verify the validity period of all EPDs"

/-- Python `isinstance(v, str) and not v.strip()`: the value is a string
whose stripped form is empty. -/
def isBlankStr : PyVal → Bool
  | .str s => pyStrip s == ""
  | _ => false

/-- Core of `evaluate_product` (rule_engine.py lines 20-70) as a function of
the two extracted fields, after the `or None` normalisation of the source's
first two statements. -/
def evaluate_product_fields (epd_url_raw epd_issue_date_raw : PyVal) :
    Except PyError (String × List String × List String) :=
  let epd_url := pyOr epd_url_raw .none
  let epd_issue_date := pyOr epd_issue_date_raw .none
  if !truthy epd_url || isBlankStr epd_url then
    .ok ("Red", ["Missing EPD file link"], [manualAdvisory])
  else
    match is_absolute_url epd_url with
    | .error e => .error e
    | .ok is_abs =>
      let has_issue_date :=
        truthy epd_issue_date && !(pyStrip (pyStr epd_issue_date) == "")
      if !is_abs && !has_issue_date then
        .ok ("Yellow", ["EPD link is relative and issue date is missing"], [manualAdvisory])
      else if !is_abs then
        .ok ("Yellow", ["EPD link is a relative path and may be inaccessible"], [manualAdvisory])
      else if !has_issue_date then
        .ok ("Yellow", ["EPD issue date is missing; validity cannot be verified"], [manualAdvisory])
      else
        .ok ("Green", ["EPD link is accessible; please verify the issue date manually"], [manualAdvisory])

/-- Embeds `evaluate_product`: extract `epd_url` and `epd_issue_date` from
the product dict, then run the decision tree. -/
def evaluate_product (product : PyDict) :
    Except PyError (String × List String × List String) :=
  evaluate_product_fields (product.get "epd_url") (product.get "epd_issue_date")

/-! ### Claim-side definitions for the rule engine -/

/-- The absoluteness predicate exactly as the claim words it: the URL starts
with `http://` or `https://` case-insensitively (no stripping). -/
def claimIsAbsolute (url : String) : Bool :=
  pyStartsWith (pyLower url) "http://" || pyStartsWith (pyLower url) "https://"

/-- The absoluteness predicate as the code has it: the URL is stripped of
surrounding whitespace before the case-insensitive prefix test. -/
def amendedIsAbsolute (url : String) : Bool :=
  let lowered := pyLower (pyStrip url)
  pyStartsWith lowered "http://" || pyStartsWith lowered "https://"

/-- Inject an optional string field value into the Python value model. -/
def optToPy : Option String → PyVal
  | Option.none => .none
  | some s => .str s

/-- The amended claim's expected outcome of `evaluate_product`, as a function
of an optional string EPD URL and optional string issue date: Red when the
URL is missing or blank; otherwise the four (isAbsolute × hasIssueDate)
cases, with `isAbsolute` testing the stripped URL; the manual-verification
advisory on every path. -/
def specEvaluate (url date : Option String) : String × List String × List String :=
  match url with
  | Option.none => ("Red", ["Missing EPD file link"], [manualAdvisory])
  | some s =>
    if pyStrip s == "" then
      ("Red", ["Missing EPD file link"], [manualAdvisory])
    else
      let a := amendedIsAbsolute s
      let d := match date with
        | Option.none => false
        | some t => !(pyStrip t == "")
      if !a && !d then
        ("Yellow", ["EPD link is relative and issue date is missing"], [manualAdvisory])
      else if !a then
        ("Yellow", ["EPD link is a relative path and may be inaccessible"], [manualAdvisory])
      else if !d then
        ("Yellow", ["EPD issue date is missing; validity cannot be verified"], [manualAdvisory])
      else
        ("Green", ["EPD link is accessible; please verify the issue date manually"], [manualAdvisory])

/-! ### C1: the four-way case analysis of `evaluate_product` -/

/-- C1 counterexample: for the product `{"epd_url": " http://example.com"}`
(leading whitespace, no issue date) the URL is present and not blank, the
claim's `isAbsolute` (a plain case-insensitive prefix test) is false and
`hasIssueDate` is false, so the claim predicts the combined
relative-and-missing-date reason; the code, which strips the URL before the
prefix test, treats it as absolute and returns the issue-date-missing
reason instead. -/
theorem c1_counterexample_leading_whitespace_url :
    (pyStrip " http://example.com" == "") = false
    ∧ claimIsAbsolute " http://example.com" = false
    ∧ evaluate_product (PyDict.cons "epd_url" (.str " http://example.com") .nil)
        ≠ .ok ("Yellow", ["EPD link is relative and issue date is missing"], [manualAdvisory])
    ∧ evaluate_product (PyDict.cons "epd_url" (.str " http://example.com") .nil)
        = .ok ("Yellow", ["EPD issue date is missing; validity cannot be verified"], [manualAdvisory]) := by
  refine ⟨rfl, rfl, ?_, rfl⟩
  intro h
  have h2 : (("Yellow", ["EPD issue date is missing; validity cannot be verified"], [manualAdvisory]) :
      String × List String × List String)
      = ("Yellow", ["EPD link is relative and issue date is missing"], [manualAdvisory]) :=
    Except.ok.inj ((rfl :
      evaluate_product (PyDict.cons "epd_url" (.str " http://example.com") .nil)
        = .ok ("Yellow", ["EPD issue date is missing; validity cannot be verified"], [manualAdvisory])).symm.trans h)
  exact absurd h2 (by decide)

/-- C1 (amended): for every product whose `epd_url` and `epd_issue_date`
fields are absent, `None`, or strings, `evaluate_product` returns exactly
the Red/Yellow/Green tier and reason dictated by the four-way
(isAbsolute × hasIssueDate) analysis — with `isAbsolute` testing the URL
after stripping surrounding whitespace — and the standing
manual-verification advisory in every case. -/
theorem c1_rule_engine_cases (product : PyDict) (url date : Option String)
    (hu : product.get "epd_url" = optToPy url)
    (hd : product.get "epd_issue_date" = optToPy date) :
    evaluate_product product = .ok (specEvaluate url date) := by
  unfold evaluate_product
  rw [hu, hd]
  cases url with
  | none =>
    cases date with
    | none => rfl
    | some t => rfl
  | some s =>
    show evaluate_product_fields (.str s) (optToPy date) = .ok (specEvaluate (some s) date)
    by_cases hempty : s = ""
    · subst hempty
      cases date with
      | none => rfl
      | some t => rfl
    · have hsne : (s != "") = true := by simp [bne_iff_ne, hempty]
      have hurl : pyOr (.str s) PyVal.none = .str s := by
        simp [pyOr, truthy, hsne]
      cases date with
      | none =>
        simp only [evaluate_product_fields, optToPy]
        simp only [hurl, show pyOr PyVal.none PyVal.none = PyVal.none from rfl,
          show is_absolute_url (PyVal.str s) = Except.ok (amendedIsAbsolute s) from rfl]
        by_cases hb : (pyStrip s == "") = true
        · simp [truthy, isBlankStr, pyStr, specEvaluate, hsne, hb]
        · simp only [Bool.not_eq_true] at hb
          simp -failIfUnchanged [truthy, isBlankStr, pyStr, specEvaluate, hsne, hb]
          try split_ifs <;> rfl
      | some t =>
        simp only [evaluate_product_fields, optToPy]
        by_cases htempty : t = ""
        · subst htempty
          simp only [hurl,
            show pyOr (PyVal.str "") PyVal.none = PyVal.none from rfl,
            show is_absolute_url (PyVal.str s) = Except.ok (amendedIsAbsolute s) from rfl]
          by_cases hb : (pyStrip s == "") = true
          · simp [truthy, isBlankStr, pyStr, specEvaluate, hsne, hb,
              show pyStrip "" = "" from rfl]
          · simp only [Bool.not_eq_true] at hb
            simp -failIfUnchanged [truthy, isBlankStr, pyStr, specEvaluate, hsne, hb,
              show pyStrip "" = "" from rfl]
            try split_ifs <;> rfl
        · have htne : (t != "") = true := by simp [bne_iff_ne, htempty]
          have hdt : pyOr (.str t) PyVal.none = .str t := by
            simp [pyOr, truthy, htne]
          simp only [hurl, hdt,
            show is_absolute_url (PyVal.str s) = Except.ok (amendedIsAbsolute s) from rfl]
          by_cases hb : (pyStrip s == "") = true
          · simp [truthy, isBlankStr, pyStr, specEvaluate, hsne, htne, hb]
          · simp only [Bool.not_eq_true] at hb
            simp -failIfUnchanged [truthy, isBlankStr, pyStr, specEvaluate, hsne,
              htne, hb]
            try split_ifs <;> rfl

/-- C1 witness: an absolute URL with a present issue date lands in the Green
case with the accessible-link reason. -/
theorem c1_witness :
    evaluate_product
        (PyDict.cons "epd_url" (.str "https://epd.example.org/a.pdf")
          (PyDict.cons "epd_issue_date" (.str "2021-05-01") PyDict.nil))
      = .ok ("Green", ["EPD link is accessible; please verify the issue date manually"], [manualAdvisory]) :=
  (c1_rule_engine_cases
    (PyDict.cons "epd_url" (.str "https://epd.example.org/a.pdf")
      (PyDict.cons "epd_issue_date" (.str "2021-05-01") PyDict.nil))
    (some "https://epd.example.org/a.pdf") (some "2021-05-01")
    rfl rfl).trans rfl

/-! ### C6: totality of `evaluate_product` -/

/-- C6 counterexample: a product whose `epd_url` holds the integer `5`
(truthy, not a string) makes `evaluate_product` raise `AttributeError`
inside `_is_absolute_url`, so the function is not total over arbitrarily
typed field values. -/
theorem c6_counterexample_integer_url :
    evaluate_product (PyDict.cons "epd_url" (.int 5) PyDict.nil)
      = .error .attributeError := rfl

/-- C6 (amended): `evaluate_product` returns a `(risk, reasons, advisories)`
triple exactly when the product's `epd_url` value is falsy (absent, `None`,
empty, zero, ...) or a string; a truthy non-string `epd_url` raises
`AttributeError`.  The `epd_issue_date` value may be of any type. -/
theorem c6_evaluate_product_totality (product : PyDict) :
    exceptIsOk (evaluate_product product)
      = (!truthy (product.get "epd_url") || pyIsStr (product.get "epd_url")) := by
  unfold evaluate_product evaluate_product_fields
  cases hu : product.get "epd_url" with
  | none => rfl
  | bool b => cases b <;> rfl
  | int n =>
    by_cases hn : n = 0
    · subst hn
      rfl
    · have hn' : (n != 0) = true := by simp [bne_iff_ne, hn]
      simp only [truthy, pyOr, hn', if_true, pyIsStr, is_absolute_url]
      rfl
  | str s =>
    by_cases hs : s = ""
    · subst hs
      rfl
    · have hs' : (s != "") = true := by simp [bne_iff_ne, hs]
      simp -failIfUnchanged [truthy, pyOr, hs', pyIsStr, is_absolute_url,
        isBlankStr, exceptIsOk]
      split_ifs <;> rfl
  | list xs => cases xs <;> rfl
  | dict kvs => cases kvs <;> rfl

/-! ## Search engine (`search_engine.py`)

The embedding provider returns floating-point similarity scores; the
retrieval logic only ever compares them, so scores live in an arbitrary
linear order `σ` here.  A catalog entry is a product paired with the
similarity the provider computed for the current query (mirroring
`enumerate(self.indexer.embeddings)` zipped with `self.indexer.products`). -/

/-- A catalog product as the search engine reads it: the fields consulted by
`_passes_filters` and the id used by the refiner.  `product_categories`
holds the `category_name` of each category entry (which `dict.get` may
report as `None`), `certifications` likewise holds each entry's
`certification` value, and `net_carbon_emissions` records the truthiness of
that field. -/
structure SProduct where
  id : Int
  product_categories : List (Option String)
  manufacturer_name : Option String
  certifications : List (Option String)
  net_carbon_emissions : Bool
deriving DecidableEq, Repr

/-- The request filters.  An empty list or `false` flag is a filter the
request did not activate (Python tests each entry with truthiness). -/
structure Filters where
  categories : List String
  manufacturers : List String
  certifications : List String
  has_certifications : Bool
  has_carbon_data : Bool
deriving DecidableEq, Repr

/-- Embeds `_passes_filters` (search_engine.py lines 76-102): category,
manufacturer and certification filters are any-match over the request list;
the two boolean filters demand a non-empty certification list resp. a
truthy carbon field; all active filters must pass. -/
def passes_filters (product : SProduct) (filters : Filters) : Bool :=
  (filters.categories.isEmpty
    || product.product_categories.any (fun c =>
        match c with
        | some n => filters.categories.contains n
        | Option.none => false))
  && (filters.manufacturers.isEmpty
    || (match product.manufacturer_name with
        | some m => filters.manufacturers.contains m
        | Option.none => false))
  && (filters.certifications.isEmpty
    || product.certifications.any (fun c =>
        match c with
        | some n => filters.certifications.contains n
        | Option.none => false))
  && (!filters.has_certifications || !product.certifications.isEmpty)
  && (!filters.has_carbon_data || product.net_carbon_emissions)

/-- The `if filters:` guard of the scan loop: no filter dict passes
everything. -/
def passesOpt (product : SProduct) : Option Filters → Bool
  | Option.none => true
  | some f => passes_filters product f

/-- Config.TOP_K_SEMANTIC. -/
def TOP_K_SEMANTIC : Nat := 30

/-- Config.TOP_K_FINAL. -/
def TOP_K_FINAL : Nat := 15

/-- The `top_k = top_k or Config.TOP_K_SEMANTIC` default: a missing or
zero (falsy) argument becomes 30. -/
def effectiveTopK : Option Nat → Nat
  | Option.none => TOP_K_SEMANTIC
  | some k => if k = 0 then TOP_K_SEMANTIC else k

section SearchEngine

variable {σ : Type} [LinearOrder σ]

/-- Python's `similarities.sort(key=lambda x: x[1], reverse=True)`:
a stable sort by similarity descending.  `insertionSort` with this relation
is stable in the same way Python's sort is: earlier entries stay before
later entries of equal score. -/
def sortBySimilarityDesc (catalog : List (SProduct × σ)) : List (SProduct × σ) :=
  List.insertionSort (fun a b => b.2 ≤ a.2) catalog

instance : DecidableRel (fun (a b : SProduct × σ) => b.2 ≤ a.2) :=
  fun a b => inferInstanceAs (Decidable (b.2 ≤ a.2))

instance : IsTotal (SProduct × σ) (fun a b => b.2 ≤ a.2) :=
  ⟨fun a b => le_total b.2 a.2⟩

instance : IsTrans (SProduct × σ) (fun a b => b.2 ≤ a.2) :=
  ⟨fun _ _ _ h1 h2 => le_trans h2 h1⟩

/-- The candidate-collection loop of `semantic_search` (lines 55-72): walk
the sorted list, skip entries below the similarity threshold, skip entries
failing the filters, append the rest, and break once `top_k` results have
been appended (`remaining` counts how many more may be appended). -/
def collectResults (threshold : σ) (filters : Option Filters) :
    Nat → List (SProduct × σ) → List (SProduct × σ)
  | _, [] => []
  | remaining, x :: rest =>
    if x.2 < threshold then collectResults threshold filters remaining rest
    else if !passesOpt x.1 filters then collectResults threshold filters remaining rest
    else if remaining ≤ 1 then [x]
    else x :: collectResults threshold filters (remaining - 1) rest

/-- Embeds `semantic_search` (search_engine.py lines 21-74) downstream of
the embedding call: sort the whole similarity list descending, then apply
threshold, filters and the `top_k` cut in score order. -/
def semantic_search (catalog : List (SProduct × σ)) (top_k : Option Nat)
    (threshold : σ) (filters : Option Filters) : List (SProduct × σ) :=
  collectResults threshold filters (effectiveTopK top_k) (sortBySimilarityDesc catalog)

/-- An entry survives the loop's two `continue`s: at or above threshold and
passing the filters. -/
def eligible (threshold : σ) (filters : Option Filters) (x : SProduct × σ) : Bool :=
  !(x.2 < threshold) && passesOpt x.1 filters

/-- The collection loop is take-after-filter whenever at least one result
may be collected. -/
theorem collectResults_eq_take_filter (threshold : σ) (filters : Option Filters) :
    ∀ (l : List (SProduct × σ)) (k : Nat), 1 ≤ k →
      collectResults threshold filters k l = (l.filter (eligible threshold filters)).take k := by
  intro l
  induction l with
  | nil => intro k _; simp [collectResults]
  | cons x rest ih =>
    intro k hk
    by_cases hlt : x.2 < threshold
    · have he : eligible threshold filters x = false := by
        simp [eligible, hlt]
      simp [collectResults, hlt, he, ih k hk]
    · by_cases hpf : passesOpt x.1 filters
      · have he : eligible threshold filters x = true := by
          simp [eligible, hlt, hpf]
        by_cases hk1 : k ≤ 1
        · have hk' : k = 1 := le_antisymm hk1 hk
          subst hk'
          simp [collectResults, hlt, hpf, he]
        · obtain ⟨m, rfl⟩ : ∃ m, k = m + 1 + 1 := ⟨k - 2, by omega⟩
          simp [collectResults, hlt, hpf, he, List.take_succ_cons,
            ih (m + 1) (by omega), (by omega : ¬(m + 1 + 1 ≤ 1)),
            Nat.add_sub_cancel]
      · have hf : (!passesOpt x.1 filters) = true := by simp [hpf]
        have he : eligible threshold filters x = false := by
          simp [eligible, hlt, hpf]
        simp [collectResults, hlt, hf, he, ih k hk]

end SearchEngine

/-- The effective `top_k` is never zero. -/
theorem effectiveTopK_pos (topK : Option Nat) : 1 ≤ effectiveTopK topK := by
  cases topK with
  | none => decide
  | some k =>
    by_cases hk : k = 0
    · subst hk; decide
    · simp [effectiveTopK, hk]; omega

section SearchEngineLemmas

variable {σ : Type} [LinearOrder σ]

/-- `semantic_search` is literally sort-then-filter-then-take. -/
theorem semantic_search_eq_take_filter (catalog : List (SProduct × σ))
    (topK : Option Nat) (threshold : σ) (filters : Option Filters) :
    semantic_search catalog topK threshold filters
      = ((sortBySimilarityDesc catalog).filter (eligible threshold filters)).take
          (effectiveTopK topK) :=
  collectResults_eq_take_filter threshold filters _ _ (effectiveTopK_pos topK)

/-- The stable descending sort is sorted by score descending. -/
theorem sorted_sortBySimilarityDesc (catalog : List (SProduct × σ)) :
    List.Pairwise (fun a b : SProduct × σ => b.2 ≤ a.2) (sortBySimilarityDesc catalog) :=
  List.sorted_insertionSort _ catalog

/-- C2: for every catalog of scored products, requested `top_k`, threshold
and filter set, `semantic_search` returns a list sorted by similarity
descending, containing no entry below the threshold, of length at most the
effective `top_k`, and equal to the highest-scoring eligible subset: the
whole similarity list sorted first, with threshold, filters and the
`top_k` cut applied afterwards in score order. -/
theorem c2_semantic_search_contract (catalog : List (SProduct × σ))
    (topK : Option Nat) (threshold : σ) (filters : Option Filters) :
    List.Pairwise (fun a b : SProduct × σ => b.2 ≤ a.2)
        (semantic_search catalog topK threshold filters)
    ∧ (∀ x ∈ semantic_search catalog topK threshold filters, threshold ≤ x.2)
    ∧ (semantic_search catalog topK threshold filters).length ≤ effectiveTopK topK
    ∧ semantic_search catalog topK threshold filters
        = ((sortBySimilarityDesc catalog).filter (eligible threshold filters)).take
            (effectiveTopK topK) := by
  have heq := semantic_search_eq_take_filter catalog topK threshold filters
  refine ⟨?_, ?_, ?_, heq⟩
  · rw [heq]
    exact ((sorted_sortBySimilarityDesc catalog).sublist
      (List.filter_sublist _)).sublist (List.take_sublist _ _)
  · intro x hx
    rw [heq] at hx
    have hx' := List.take_subset _ _ hx
    have he := List.of_mem_filter hx'
    have : ¬ x.2 < threshold := by
      intro hlt
      simp [eligible, hlt] at he
    exact not_lt.mp this
  · rw [heq, List.length_take]
    exact min_le_left _ _

end SearchEngineLemmas

/-! ### C7: adding a filter never increases the result count -/

/-- The claim's "additional filter": `F'` is `F` with exactly one
previously-inactive filter activated. -/
inductive FilterAdd : Filters → Filters → Prop
  | categories (f : Filters) (cs : List String) (h : f.categories = []) :
      FilterAdd f { f with categories := cs }
  | manufacturers (f : Filters) (ms : List String) (h : f.manufacturers = []) :
      FilterAdd f { f with manufacturers := ms }
  | certifications (f : Filters) (cs : List String) (h : f.certifications = []) :
      FilterAdd f { f with certifications := cs }
  | has_certifications (f : Filters) (h : f.has_certifications = false) :
      FilterAdd f { f with has_certifications := true }
  | has_carbon_data (f : Filters) (h : f.has_carbon_data = false) :
      FilterAdd f { f with has_carbon_data := true }

/-- A product passing the augmented filter set passes the original one. -/
theorem passes_filters_of_filterAdd {F F' : Filters} (h : FilterAdd F F')
    (p : SProduct) : passes_filters p F' = true → passes_filters p F = true := by
  cases h with
  | categories cs hc =>
    simp only [passes_filters, Bool.and_eq_true]
    rintro ⟨⟨⟨⟨_, h2⟩, h3⟩, h4⟩, h5⟩
    refine ⟨⟨⟨⟨?_, h2⟩, h3⟩, h4⟩, h5⟩
    simp [hc]
  | manufacturers ms hc =>
    simp only [passes_filters, Bool.and_eq_true]
    rintro ⟨⟨⟨⟨h1, _⟩, h3⟩, h4⟩, h5⟩
    refine ⟨⟨⟨⟨h1, ?_⟩, h3⟩, h4⟩, h5⟩
    simp [hc]
  | certifications cs hc =>
    simp only [passes_filters, Bool.and_eq_true]
    rintro ⟨⟨⟨⟨h1, h2⟩, _⟩, h4⟩, h5⟩
    refine ⟨⟨⟨⟨h1, h2⟩, ?_⟩, h4⟩, h5⟩
    simp [hc]
  | has_certifications hc =>
    simp only [passes_filters, Bool.and_eq_true]
    rintro ⟨⟨⟨⟨h1, h2⟩, h3⟩, _⟩, h5⟩
    refine ⟨⟨⟨⟨h1, h2⟩, h3⟩, ?_⟩, h5⟩
    simp [hc]
  | has_carbon_data hc =>
    simp only [passes_filters, Bool.and_eq_true]
    rintro ⟨⟨⟨⟨h1, h2⟩, h3⟩, h4⟩, _⟩
    refine ⟨⟨⟨⟨h1, h2⟩, h3⟩, h4⟩, ?_⟩
    simp [hc]

/-- Filtering with a pointwise-stronger predicate yields a list no longer. -/
theorem length_filter_le_of_imp {α : Type} {p q : α → Bool}
    (h : ∀ a, p a = true → q a = true) (l : List α) :
    (l.filter p).length ≤ (l.filter q).length := by
  rw [← List.countP_eq_length_filter, ← List.countP_eq_length_filter]
  exact List.countP_mono_left (fun x _ hx => h x hx)

section C7Section

variable {σ : Type} [LinearOrder σ]

/-- C7: for every catalog, `top_k` and threshold, adding one more filter to
a filter set never increases the number of results `semantic_search`
returns, and any filtered call returns at most as many results as the
corresponding unfiltered call. -/
theorem c7_filter_never_increases_count (catalog : List (SProduct × σ))
    (topK : Option Nat) (threshold : σ) (F F' : Filters) (hadd : FilterAdd F F') :
    (semantic_search catalog topK threshold (some F')).length
        ≤ (semantic_search catalog topK threshold (some F)).length
    ∧ (semantic_search catalog topK threshold (some F)).length
        ≤ (semantic_search catalog topK threshold Option.none).length := by
  constructor
  · rw [semantic_search_eq_take_filter, semantic_search_eq_take_filter,
      List.length_take, List.length_take]
    refine min_le_min_left _ ?_
    refine length_filter_le_of_imp ?_ _
    intro x hx
    simp only [eligible, Bool.and_eq_true] at hx ⊢
    exact ⟨hx.1, passes_filters_of_filterAdd hadd x.1 hx.2⟩
  · rw [semantic_search_eq_take_filter, semantic_search_eq_take_filter,
      List.length_take, List.length_take]
    refine min_le_min_left _ ?_
    refine length_filter_le_of_imp ?_ _
    intro x hx
    simp only [eligible, Bool.and_eq_true] at hx ⊢
    exact ⟨hx.1, rfl⟩

end C7Section

/-- C7 witness: on a concrete two-product catalog with integer scores,
activating a category filter shrinks the result list (2 results down
to 1), and the filtered counts are bounded by the unfiltered count. -/
theorem c7_witness :
    (semantic_search
        [(⟨1, [some "Paint"], some "Acme", [], false⟩, (5 : Int)),
         (⟨2, [some "Timber"], some "Bob", [], false⟩, (4 : Int))]
        (some 10) (0 : Int) (some ⟨["Paint"], [], [], false, false⟩)).length
      ≤ (semantic_search
        [(⟨1, [some "Paint"], some "Acme", [], false⟩, (5 : Int)),
         (⟨2, [some "Timber"], some "Bob", [], false⟩, (4 : Int))]
        (some 10) (0 : Int) (some ⟨[], [], [], false, false⟩)).length
    ∧ (semantic_search
        [(⟨1, [some "Paint"], some "Acme", [], false⟩, (5 : Int)),
         (⟨2, [some "Timber"], some "Bob", [], false⟩, (4 : Int))]
        (some 10) (0 : Int) (some ⟨[], [], [], false, false⟩)).length
      ≤ (semantic_search
        [(⟨1, [some "Paint"], some "Acme", [], false⟩, (5 : Int)),
         (⟨2, [some "Timber"], some "Bob", [], false⟩, (4 : Int))]
        (some 10) (0 : Int) Option.none).length :=
  c7_filter_never_increases_count
    [(⟨1, [some "Paint"], some "Acme", [], false⟩, (5 : Int)),
     (⟨2, [some "Timber"], some "Bob", [], false⟩, (4 : Int))]
    (some 10) (0 : Int) ⟨[], [], [], false, false⟩ ⟨["Paint"], [], [], false, false⟩
    (FilterAdd.categories ⟨[], [], [], false, false⟩ ["Paint"] rfl)

/-! ## LLM rank refiner (`search_engine.py` lines 104-181)

The generative provider's reply is modelled by its observable outcome: the
call raised (any exception inside the `try` block, including replies whose
parsed JSON is not an array of objects carrying `product_id`), the reply was
not parseable JSON (`json.JSONDecodeError`), or it parsed to an array of
recommendation records. -/

/-- One parsed recommendation record `{product_id, rank, relevance_score,
explanation}` from the provider's JSON array. -/
structure RefRec where
  product_id : Int
  rank : Int
  relevance_score : Int
  explanation : String
deriving DecidableEq, Repr

/-- The outcome of the refinement call to the generative provider. -/
inductive ReplyOutcome where
  | raised
  | unparsable
  | parsed (recs : List RefRec)
deriving DecidableEq, Repr

/-- The fallback `products[:Config.TOP_K_FINAL]`: the first `TOP_K_FINAL`
candidates in input order, carrying no LLM annotation. -/
def fallbackResults (products : List SProduct) : List (SProduct × Option RefRec) :=
  (products.take TOP_K_FINAL).map (fun p => (p, Option.none))

/-- Embeds `llm_refine_results`: empty input gives `[]`; without a client
the fallback is returned; a raised call or unparsable reply falls back; a
parsed array is mapped back onto candidates through `{p['id']: p}` (later
duplicates win, as in a dict comprehension), unknown ids are dropped, an
empty mapped list falls back, and the mapped list is cut to `TOP_K_FINAL`. -/
def llm_refine_results (products : List SProduct) (hasClient : Bool)
    (reply : ReplyOutcome) : List (SProduct × Option RefRec) :=
  if products.isEmpty then []
  else if !hasClient then fallbackResults products
  else
    match reply with
    | .raised => fallbackResults products
    | .unparsable => fallbackResults products
    | .parsed recs =>
      let productMap : Int → Option SProduct := fun i =>
        (products.filter (fun p => p.id == i)).getLast?
      let refined := recs.filterMap (fun rec =>
        (productMap rec.product_id).map (fun p => (p, some rec)))
      if refined.isEmpty then fallbackResults products
      else refined.take TOP_K_FINAL

/-- Every entry the refiner returns is one of the input candidates. -/
theorem llm_refine_results_subset (products : List SProduct) (hasClient : Bool)
    (reply : ReplyOutcome) (x : SProduct × Option RefRec)
    (hx : x ∈ llm_refine_results products hasClient reply) : x.1 ∈ products := by
  have hfall : ∀ y : SProduct × Option RefRec, y ∈ fallbackResults products → y.1 ∈ products := by
    intro y hy
    simp only [fallbackResults, List.mem_map] at hy
    obtain ⟨p, hp, rfl⟩ := hy
    exact List.take_subset _ _ hp
  unfold llm_refine_results at hx
  by_cases hemp : products.isEmpty
  · simp [hemp] at hx
  · simp only [hemp, if_false] at hx
    by_cases hc : hasClient
    · simp only [hc, Bool.not_true, if_false] at hx
      cases reply with
      | raised => exact hfall x hx
      | unparsable => exact hfall x hx
      | parsed recs =>
        by_cases hr : (recs.filterMap (fun rec =>
            ((products.filter (fun p => p.id == rec.product_id)).getLast?).map
              (fun p => (p, some rec)))).isEmpty
        · simp only [hr, if_true] at hx
          exact hfall x hx
        · simp only [hr, if_false] at hx
          have hx' := List.take_subset _ _ hx
          obtain ⟨rec, _, hmap⟩ := List.mem_filterMap.mp hx'
          obtain ⟨p, hp, hxp⟩ := Option.map_eq_some'.mp hmap
          have hpmem : p ∈ products.filter (fun p => p.id == rec.product_id) :=
            List.mem_of_mem_getLast? hp
          have := List.mem_of_mem_filter hpmem
          rw [← hxp]
          exact this
    · simp only [hc] at hx
      simp only [Bool.not_false, if_true] at hx
      exact hfall x hx

/-- C3: for every non-empty candidate list, a raised provider call, an
unparsable reply, a reply parsing to an empty array, and a reply none of
whose `product_id`s maps to a candidate all make `llm_refine_results`
return exactly the first `TOP_K_FINAL` candidates in input order; and
whatever the reply, every returned entry is one of the input candidates
(unknown ids are dropped, never an error). -/
theorem c3_refiner_fallback (products : List SProduct) (hne : products ≠ [])
    (recs : List RefRec)
    (hmiss : ∀ r ∈ recs, ∀ p ∈ products, p.id ≠ r.product_id)
    (reply : ReplyOutcome) (x : SProduct × Option RefRec)
    (hx : x ∈ llm_refine_results products true reply) :
    llm_refine_results products true .raised = fallbackResults products
    ∧ llm_refine_results products true .unparsable = fallbackResults products
    ∧ llm_refine_results products true (.parsed []) = fallbackResults products
    ∧ llm_refine_results products true (.parsed recs) = fallbackResults products
    ∧ x.1 ∈ products := by
  have hemp : products.isEmpty = false := by
    cases products with
    | nil => exact absurd rfl hne
    | cons a l => rfl
  have hfb : fallbackResults products = fallbackResults products := rfl
  refine ⟨?_, ?_, ?_, ?_, llm_refine_results_subset products true reply x hx⟩
  · simp [llm_refine_results, hemp]
  · simp [llm_refine_results, hemp]
  · simp [llm_refine_results, hemp]
  · simp [llm_refine_results, hemp]
    intro r hr p hp heq
    exact absurd heq (hmiss r hr p hp)

/-- C3 witness: a one-candidate list and a parsed reply naming an unknown
id fall back to the candidate itself, which is also the only possible
member of the output. -/
theorem c3_witness :
    llm_refine_results [⟨1, [], Option.none, [], false⟩] true .raised
        = fallbackResults [⟨1, [], Option.none, [], false⟩]
    ∧ llm_refine_results [⟨1, [], Option.none, [], false⟩] true .unparsable
        = fallbackResults [⟨1, [], Option.none, [], false⟩]
    ∧ llm_refine_results [⟨1, [], Option.none, [], false⟩] true (.parsed [])
        = fallbackResults [⟨1, [], Option.none, [], false⟩]
    ∧ llm_refine_results [⟨1, [], Option.none, [], false⟩] true
        (.parsed [⟨99, 1, 5, "irrelevant"⟩])
        = fallbackResults [⟨1, [], Option.none, [], false⟩]
    ∧ ((⟨1, [], Option.none, [], false⟩ : SProduct), (Option.none : Option RefRec)).1
        ∈ [(⟨1, [], Option.none, [], false⟩ : SProduct)] :=
  c3_refiner_fallback [⟨1, [], Option.none, [], false⟩] (by decide)
    [⟨99, 1, 5, "irrelevant"⟩] (by decide)
    (.parsed [⟨99, 1, 5, "irrelevant"⟩])
    (⟨1, [], Option.none, [], false⟩, Option.none) (by decide)

/-! ## Catalog lookup (`product_indexer.py` lines 145-150)

`get_product_by_id` subscripts `product['id']` directly (a `KeyError` when
the key is missing) and compares with Python `==`, which never equates an
`int` with a `str`. -/

/-- Embeds `get_product_by_id`: walk the catalog, return the first product
whose `id` value equals the argument under Python `==`, else `None`. -/
def get_product_by_id : List PyDict → PyVal → Except PyError (Option PyDict)
  | [], _ => .ok Option.none
  | p :: rest, product_id =>
    if p.hasKey "id" then
      if pyEq (p.get "id") product_id then .ok (some p)
      else get_product_by_id rest product_id
    else .error .keyError

/-! ### C5: id lookup does not normalise numeric and string forms -/

/-- C5 counterexample: the integer id `1221` and the string `"1221"` have
the same normalized string form, yet looking the string up in a catalog
that stores the id numerically returns `None` — `get_product_by_id`
compares with raw `==`, not by normalized string form. -/
theorem c5_counterexample_string_form_misses :
    pyStr (.int 1221) = pyStr (.str "1221")
    ∧ get_product_by_id [PyDict.cons "id" (.int 1221) PyDict.nil] (.str "1221")
        = .ok Option.none := by
  exact ⟨by decide, rfl⟩

/-- C5 (amended): over catalogs whose products all carry an `id` key,
`get_product_by_id` returns the first product whose `id` value equals the
query under Python value equality (no string normalisation): a numeric id
matches only a numeric query and a string id only a string query. -/
theorem c5_get_product_by_id_first_match (products : List PyDict) (product_id : PyVal)
    (h : ∀ p ∈ products, p.hasKey "id" = true) :
    get_product_by_id products product_id
      = .ok (products.find? (fun p => pyEq (p.get "id") product_id)) := by
  induction products with
  | nil => rfl
  | cons p rest ih =>
    have hp := h p (List.mem_cons_self p rest)
    simp only [get_product_by_id, hp, if_true]
    by_cases he : pyEq (p.get "id") product_id = true
    · simp [List.find?_cons, he]
    · have he' : pyEq (p.get "id") product_id = false := by
        simp only [Bool.not_eq_true] at he
        exact he
      simp [List.find?_cons, he',
        ih (fun q hq => h q (List.mem_cons_of_mem p hq))]

/-- C5 witness: a numeric query does find the numerically stored id. -/
theorem c5_witness :
    get_product_by_id [PyDict.cons "id" (.int 7) PyDict.nil] (.int 7)
      = .ok (some (PyDict.cons "id" (.int 7) PyDict.nil)) :=
  (c5_get_product_by_id_first_match [PyDict.cons "id" (.int 7) PyDict.nil]
    (.int 7) (by decide)).trans rfl

/-! ## Search endpoint pagination (`app.py` lines 213-264)

Both the no-query and the query paths paginate identically: clamp the page
to at least 1 and `per_page` to 10..100, compute
`total_pages = (total + per_page - 1) // per_page`, and slice
`results[start : start + per_page]` with `start = (page - 1) * per_page`. -/

/-- The slice `results[(page-1)*per_page : (page-1)*per_page + per_page]`
after the endpoint's clamping of `page` and `per_page`. -/
def paginateResults {α : Type} (results : List α) (pageReq perPageReq : Int) :
    List α :=
  let page := max 1 pageReq
  let per_page := min 100 (max 10 perPageReq)
  let start_idx := ((page - 1) * per_page).toNat
  (results.drop start_idx).take per_page.toNat

/-- `total_pages = (total + per_page - 1) // per_page` with the clamped
`per_page` (the operands are nonnegative, so Python floor division agrees
with truncated division). -/
def totalPages (total : Nat) (perPageReq : Int) : Nat :=
  let per_page := min 100 (max 10 perPageReq)
  (((total : Int) + per_page - 1) / per_page).toNat

/-- C9: over any result list of length 97 with `per_page = 50`,
`total_pages` is 2; page 2 returns exactly the items at positions 51-97
(the 47-element tail after dropping 50); and any page beyond `total_pages`
returns the empty list (no error is possible). -/
theorem c9_search_pagination {α : Type} (results : List α)
    (h : results.length = 97) (p : Int) (hp : 2 < p) :
    totalPages results.length 50 = 2
    ∧ paginateResults results 2 50 = results.drop 50
    ∧ (paginateResults results 2 50).length = 47
    ∧ paginateResults results p 50 = [] := by
  have e1 : paginateResults results 2 50 = (results.drop 50).take 50 := rfl
  have hlen : (results.drop 50).length = 47 := by
    rw [List.length_drop, h]
  have e2 : paginateResults results 2 50 = results.drop 50 := by
    rw [e1]
    exact List.take_of_length_le (by rw [hlen]; omega)
  refine ⟨by rw [h]; decide, e2, by rw [e2, hlen], ?_⟩
  have hmax : max 1 p = p := max_eq_right (by omega)
  have e3 : paginateResults results p 50
      = (results.drop (((max 1 p - 1) * 50).toNat)).take 50 := rfl
  rw [e3, hmax]
  have hge : results.length ≤ ((p - 1) * 50).toNat := by
    rw [h]
    omega
  rw [List.drop_eq_nil_of_le hge]
  rfl

/-- C9 witness: the concrete list `0, 1, ..., 96` paginated at page 2 and
page 3 with `per_page = 50`. -/
theorem c9_witness :
    totalPages (List.range 97).length 50 = 2
    ∧ paginateResults (List.range 97) 2 50 = (List.range 97).drop 50
    ∧ (paginateResults (List.range 97) 2 50).length = 47
    ∧ paginateResults (List.range 97) 3 50 = [] :=
  c9_search_pagination (List.range 97) (by simp) 3 (by decide)

/-! ## Batch scan path (`epd_api.py`)

`_detect_cert_state`, `_find_product_by_id` and the per-identifier body of
`create_scan` (the construction of each persisted `ScanResult` row and the
risk counters).  Response-only decorations (thumbnail extraction, category
and certificate-URL lists) are not part of the persisted row and are not
modelled.  Iterating a truthy non-list `certifications` value fails in
Python (either the iteration itself or the `c.get` on its elements raises);
the embedding collapses those failures into a single error case. -/

/-- Python `c.get(k)` on an arbitrary value: only dicts have `.get`. -/
def pyGetMethod : PyVal → String → Except PyError PyVal
  | .dict kvs, key => .ok (kvs.get key)
  | _, _ => .error .attributeError

/-- Python `for c in v`: only list values iterate cleanly here (for any
other truthy value the loop body's `c.get` raises; collapsed to an error). -/
def pyIterate : PyVal → Except PyError PyList
  | .list xs => .ok xs
  | _ => .error .typeError

/-- The text fields scanned for certification keywords. -/
def text_fields : List String :=
  ["product_name", "product_description", "long_description", "description",
   "title", "certifications_text", "notes"]

/-- The URL fields whose presence indicates a certificate. -/
def url_fields : List String :=
  ["certificate_url", "certification_url", "green_tag_url", "greentag_url",
   "hpd_url"]

/-- The general certification-scheme keyword vocabulary. -/
def general_keywords : List String :=
  ["greentag", "green tag", "geca", "greenguard", "bifma", "afrdi",
   "cradle to cradle", "c2c", "declare", "hpd", "health product declaration",
   "fsc", "pefc", "responsible wood", "responsible steel", "oeko-tex",
   "scs indoor advantage", "certificate", "certified", "certification",
   "ecolabel", "green rate", "health rate", "lca rate"]

/-- The EPD-specific keyword vocabulary. -/
def epd_keywords : List String :=
  ["epd", "environmental product declaration", "iso 14025", "en 15804",
   "ibu", "epd australasia", "epd international", "environdec"]

/-- Embeds `_text_contains_any`: lower-case the text and test each keyword
for substring containment (the keywords are already lower-case; the
`text or ""` guard is the identity on the strings built here). -/
def text_contains_any (text : String) (keywords : List String) : Bool :=
  keywords.any (fun k => strContainsSub (pyLower text) k)

/-- The `cert_names` loop: `name = c.get("certification") or c.get("name")
or ""` stringified for each entry of the certifications array. -/
def collectCertNames : PyList → Except PyError (List String)
  | .nil => .ok []
  | .cons c rest =>
    match pyGetMethod c "certification" with
    | .error e => .error e
    | .ok a =>
      match pyGetMethod c "name" with
      | .error e => .error e
      | .ok b =>
        match collectCertNames rest with
        | .error e => .error e
        | .ok tl => .ok (pyStr (pyOr (pyOr a b) (.str "")) :: tl)

/-- Embeds `_detect_cert_state` (epd_api.py lines 103-197): an empty product
detects nothing; otherwise certificate presence is the boolean flag, a
non-empty certifications array, a truthy certificate URL field, or a
keyword hit in the free-text fields or certification names; EPD-specific
presence is a truthy `epd_url` or an EPD keyword hit. -/
def detect_cert_state (product : PyDict) : Except PyError (Bool × Bool) :=
  if product.isEmpty then .ok (false, false)
  else
    let has_flag := truthy (product.get "has_certifications")
    let certs := pyOr (product.get "certifications") (.list .nil)
    let has_array := truthy certs
    let has_url := url_fields.any (fun f => truthy (product.get f))
    let combined_text :=
      joinSpace (text_fields.map (fun f => pyStr (pyOr (product.get f) (.str ""))))
    match pyIterate certs with
    | .error e => .error e
    | .ok certItems =>
      match collectCertNames certItems with
      | .error e => .error e
      | .ok cert_names =>
        let names_text := joinSpace cert_names
        let has_general_by_text :=
          text_contains_any combined_text general_keywords
            || text_contains_any names_text general_keywords
        let has_epd_by_text :=
          text_contains_any combined_text epd_keywords
            || text_contains_any names_text epd_keywords
        let has_any := has_flag || has_array || has_url || has_general_by_text
        let has_epd := truthy (product.get "epd_url") || has_epd_by_text
        .ok (has_any, has_epd)

/-- The id keys `_find_product_by_id` accepts. -/
def candidate_keys : List String := ["id", "product_id", "sku", "code"]

/-- One product matches when some candidate key is present and its value's
string form equals the target. -/
def matchesAnyIdKey (target : String) (p : PyDict) : Bool :=
  candidate_keys.any (fun k => p.hasKey k && pyStr (p.get k) == target)

/-- Embeds `_find_product_by_id`: first catalog product matching the target
id (already a string) under stringified comparison of any candidate key. -/
def find_product_by_id (catalog : List PyDict) (product_id : String) :
    Option PyDict :=
  catalog.find? (matchesAnyIdKey product_id)

/-- The persisted `ScanResult` columns filled per identifier (models.py /
epd_api.py lines 357-367); `reasons` and `advisories` keep their list form
(the row stores their JSON serialisation). -/
structure ScanResultRow where
  input_product_id : String
  product_name : PyVal
  manufacturer_name : PyVal
  epd_url : PyVal
  epd_issue_date : PyVal
  risk_level : String
  reasons : List String
  advisories : List String

/-- The per-identifier body of `create_scan` (epd_api.py lines 297-367):
detect the certificate state, run the base rule evaluation, and persist the
certificate-based tier together with the rule evaluation's reasons and
advisories.  The base tier is discarded. -/
def buildScanRow (pid : String) (product : PyDict) : Except PyError ScanResultRow :=
  match detect_cert_state product with
  | .error e => .error e
  | .ok (has_certs, has_epd_cert) =>
    match evaluate_product product with
    | .error e => .error e
    | .ok (_base_risk, reasons, advisories) =>
      let risk_for_display :=
        if has_epd_cert then "Green" else if has_certs then "Yellow" else "Red"
      .ok { input_product_id := pid
            product_name := pyOr (product.get "product_name") (product.get "name")
            manufacturer_name :=
              pyOr (product.get "manufacturer_name") (product.get "manufacturer")
            epd_url := product.get "epd_url"
            epd_issue_date := product.get "epd_issue_date"
            risk_level := risk_for_display
            reasons := reasons
            advisories := advisories }

/-- A completed scan: the persisted rows plus the three risk counters fixed
at creation. -/
structure ScanOutcome where
  results : List ScanResultRow
  high : Nat
  med : Nat
  low : Nat

/-- Embeds the `create_scan` processing loop: each identifier is looked up
(`or {}` on a miss), turned into a row, and counted into the bucket of its
displayed tier. -/
def create_scan (catalog : List PyDict) : List String → Except PyError ScanOutcome
  | [] => .ok { results := [], high := 0, med := 0, low := 0 }
  | pid :: rest =>
    let product := (find_product_by_id catalog pid).getD PyDict.nil
    match buildScanRow pid product with
    | .error e => .error e
    | .ok row =>
      match create_scan catalog rest with
      | .error e => .error e
      | .ok out =>
        .ok { results := row :: out.results
              high := (if row.risk_level == "Red" then 1 else 0) + out.high
              med := (if row.risk_level == "Yellow" then 1 else 0) + out.med
              low := (if row.risk_level == "Green" then 1 else 0) + out.low }

/-- The JSON request path of `create_scan` (epd_api.py lines 279-282):
`[str(x).strip() for x in product_ids if str(x).strip()][:5000]`. -/
def json_scan_ids (raw : List PyVal) : List String :=
  ((raw.map (fun x => pyStrip (pyStr x))).filter (fun s => !(s == ""))).take 5000

/-- The CSV request path (epd_api.py line 275): the extracted (already
non-blank) id column truncated to 5000 entries. -/
def csv_scan_ids (ids : List String) : List String :=
  ids.take 5000

/-- A successful scan persists exactly one row per processed identifier. -/
theorem create_scan_length (catalog : List PyDict) :
    ∀ (pids : List String) (out : ScanOutcome),
      create_scan catalog pids = .ok out → out.results.length = pids.length := by
  intro pids
  induction pids with
  | nil =>
    intro out h
    simp only [create_scan] at h
    rw [← Except.ok.inj h]
    rfl
  | cons pid rest ih =>
    intro out h
    simp only [create_scan] at h
    split at h
    · exact absurd h (by simp)
    · split at h
      · exact absurd h (by simp)
      · rename_i out2 heq2
        rw [← Except.ok.inj h]
        simp [ih out2 heq2]

/-- The high counter of a successful scan counts exactly its Red rows. -/
theorem create_scan_high_counts_red (catalog : List PyDict) :
    ∀ (pids : List String) (out : ScanOutcome),
      create_scan catalog pids = .ok out →
        out.high = (out.results.filter (fun r => r.risk_level == "Red")).length := by
  intro pids
  induction pids with
  | nil =>
    intro out h
    simp only [create_scan] at h
    rw [← Except.ok.inj h]
    rfl
  | cons pid rest ih =>
    intro out h
    simp only [create_scan] at h
    split at h
    · exact absurd h (by simp)
    · split at h
      · exact absurd h (by simp)
      · rename_i xa row hroweq xb out2 heq2
        rw [← Except.ok.inj h]
        by_cases hred : (row.risk_level == "Red") = true
        · simp [List.filter_cons, hred, ih out2 heq2, Nat.add_comm]
        · have hred' : (row.risk_level == "Red") = false := by
            simp only [Bool.not_eq_true] at hred
            exact hred
          simp [List.filter_cons, hred', ih out2 heq2]

/-! ### C4: the persisted tier comes from the certificate heuristic -/

/-- C4: whenever a scan row is built for an identifier, its persisted
`risk_level` is the certificate-heuristic tier (Green with an EPD-specific
certificate, Yellow with some certificate but no EPD one, Red with none)
and its `reasons`/`advisories` are exactly those of the URL/date-based
`evaluate_product`, whose own tier does not influence the persisted
`risk_level`. -/
theorem c4_scan_tier_from_cert_heuristic (pid : String) (product : PyDict)
    (row : ScanResultRow) (cert_state : Bool × Bool)
    (base_eval : String × List String × List String)
    (hrow : buildScanRow pid product = .ok row)
    (hdet : detect_cert_state product = .ok cert_state)
    (heval : evaluate_product product = .ok base_eval) :
    row.risk_level
        = (if cert_state.2 then "Green" else if cert_state.1 then "Yellow" else "Red")
    ∧ row.reasons = base_eval.2.1
    ∧ row.advisories = base_eval.2.2 := by
  obtain ⟨has_certs, has_epd_cert⟩ := cert_state
  obtain ⟨base_risk, base_reasons, base_advisories⟩ := base_eval
  have hval : buildScanRow pid product = .ok
      { input_product_id := pid
        product_name := pyOr (product.get "product_name") (product.get "name")
        manufacturer_name :=
          pyOr (product.get "manufacturer_name") (product.get "manufacturer")
        epd_url := product.get "epd_url"
        epd_issue_date := product.get "epd_issue_date"
        risk_level :=
          if has_epd_cert then "Green" else if has_certs then "Yellow" else "Red"
        reasons := base_reasons
        advisories := base_advisories } := by
    unfold buildScanRow
    rw [hdet, heval]
  have hroweq := Except.ok.inj (hrow.symm.trans hval)
  rw [hroweq]
  exact ⟨rfl, rfl, rfl⟩

/-- C4 witness: a product with a relative EPD link (base evaluation Yellow
with the combined relative-and-missing-date reason) but an EPD certificate
is persisted as Green while keeping the base evaluation's reasons. -/
theorem c4_witness :
    ((⟨"p1", PyVal.none, PyVal.none, .str "docs/epd.pdf", PyVal.none, "Green",
        ["EPD link is relative and issue date is missing"],
        [manualAdvisory]⟩ : ScanResultRow).risk_level
      = (if (true : Bool) then "Green" else if (true : Bool) then "Yellow" else "Red"))
    ∧ ((⟨"p1", PyVal.none, PyVal.none, .str "docs/epd.pdf", PyVal.none, "Green",
        ["EPD link is relative and issue date is missing"],
        [manualAdvisory]⟩ : ScanResultRow).reasons
      = ("Yellow", ["EPD link is relative and issue date is missing"],
          [manualAdvisory]).2.1)
    ∧ ((⟨"p1", PyVal.none, PyVal.none, .str "docs/epd.pdf", PyVal.none, "Green",
        ["EPD link is relative and issue date is missing"],
        [manualAdvisory]⟩ : ScanResultRow).advisories
      = ("Yellow", ["EPD link is relative and issue date is missing"],
          [manualAdvisory]).2.2) :=
  c4_scan_tier_from_cert_heuristic "p1"
    (PyDict.cons "epd_url" (.str "docs/epd.pdf")
      (PyDict.cons "certifications"
        (.list (.cons (.dict (PyDict.cons "certification" (.str "EPD Australasia") PyDict.nil))
          PyList.nil))
        PyDict.nil))
    ⟨"p1", PyVal.none, PyVal.none, .str "docs/epd.pdf", PyVal.none, "Green",
      ["EPD link is relative and issue date is missing"], [manualAdvisory]⟩
    (true, true)
    ("Yellow", ["EPD link is relative and issue date is missing"], [manualAdvisory])
    rfl rfl rfl

/-! ### C8: scans process at most the first 5000 identifiers -/

/-- C8: a JSON scan request with more than 5000 valid (non-blank)
identifiers processes exactly the first 5000 of them, a CSV request with
more than 5000 extracted identifiers likewise keeps exactly the first 5000,
the overflow is dropped without any error, and a successful scan persists
one row per processed identifier. -/
theorem c8_scan_truncates_at_5000 (raw : List PyVal)
    (h1 : 5000 < ((raw.map (fun x => pyStrip (pyStr x))).filter
        (fun s => !(s == ""))).length)
    (csvIds : List String) (h2 : 5000 < csvIds.length)
    (pids : List String) (catalog : List PyDict) (out : ScanOutcome)
    (h3 : create_scan catalog pids = .ok out) :
    json_scan_ids raw
        = ((raw.map (fun x => pyStrip (pyStr x))).filter
            (fun s => !(s == ""))).take 5000
    ∧ (json_scan_ids raw).length = 5000
    ∧ csv_scan_ids csvIds = csvIds.take 5000
    ∧ (csv_scan_ids csvIds).length = 5000
    ∧ out.results.length = pids.length := by
  refine ⟨rfl, ?_, rfl, ?_, create_scan_length catalog pids out h3⟩
  · simp only [json_scan_ids, List.length_take]
    omega
  · simp only [csv_scan_ids, List.length_take]
    omega

/-- C8 witness: 5001 submitted identifiers (JSON and CSV) truncate to 5000,
and a one-identifier scan against an empty catalog persists one row. -/
theorem c8_witness :
    json_scan_ids (List.replicate 5001 (PyVal.str "a"))
        = (((List.replicate 5001 (PyVal.str "a")).map
            (fun x => pyStrip (pyStr x))).filter (fun s => !(s == ""))).take 5000
    ∧ (json_scan_ids (List.replicate 5001 (PyVal.str "a"))).length = 5000
    ∧ csv_scan_ids (List.replicate 5001 "b") = (List.replicate 5001 "b").take 5000
    ∧ (csv_scan_ids (List.replicate 5001 "b")).length = 5000
    ∧ ((⟨[⟨"9", PyVal.none, PyVal.none, PyVal.none, PyVal.none, "Red",
            ["Missing EPD file link"], [manualAdvisory]⟩], 1, 0, 0⟩ : ScanOutcome)).results.length
        = ["9"].length :=
  c8_scan_truncates_at_5000 (List.replicate 5001 (PyVal.str "a"))
    (by
      rw [List.map_replicate, List.filter_replicate,
        if_pos (by decide : ((fun s => !(s == "")) (pyStrip (pyStr (PyVal.str "a")))) = true),
        List.length_replicate]
      omega)
    (List.replicate 5001 "b")
    (by rw [List.length_replicate]; omega)
    ["9"] [] _ rfl

/-! ### C10: unknown identifiers still yield a persisted Red row -/

/-- An identifier that matches no catalog product always contributes the
missing-product Red row to a successful scan's results. -/
theorem create_scan_mem_missing (catalog : List PyDict) (pid : String)
    (hmiss : find_product_by_id catalog pid = Option.none) :
    ∀ (pids : List String) (out : ScanOutcome), pid ∈ pids →
      create_scan catalog pids = .ok out →
      (⟨pid, PyVal.none, PyVal.none, PyVal.none, PyVal.none, "Red",
        ["Missing EPD file link"], [manualAdvisory]⟩ : ScanResultRow) ∈ out.results := by
  intro pids
  induction pids with
  | nil =>
    intro out hm _
    exact absurd hm (List.not_mem_nil pid)
  | cons pid2 rest ih =>
    intro out hm h
    simp only [create_scan] at h
    split at h
    · exact absurd h (by simp)
    · split at h
      · exact absurd h (by simp)
      · rename_i xa row hroweq xb out2 heq2
        rw [← Except.ok.inj h]
        rcases List.mem_cons.mp hm with heq | hmem
        · subst heq
          rw [hmiss] at hroweq
          have hrow : row = ⟨pid, PyVal.none, PyVal.none, PyVal.none, PyVal.none,
              "Red", ["Missing EPD file link"], [manualAdvisory]⟩ :=
            (Except.ok.inj hroweq).symm
          rw [← hrow]
          exact List.mem_cons_self row out2.results
        · exact List.mem_cons_of_mem row (ih out2 hmem heq2)

/-- C10: an identifier matching no catalog product is evaluated as the
empty record, producing a persisted row (never a NotFound error) whose
displayed `risk_level` is Red and whose stored reasons are exactly
`["Missing EPD file link"]`; that row appears in the scan's results, and
the scan's high counter counts exactly its Red rows, this one included. -/
theorem c10_unknown_id_persisted_red (catalog : List PyDict) (pid : String)
    (hmiss : find_product_by_id catalog pid = Option.none)
    (pids : List String) (hmem : pid ∈ pids) (out : ScanOutcome)
    (hscan : create_scan catalog pids = .ok out) :
    buildScanRow pid ((find_product_by_id catalog pid).getD PyDict.nil)
        = .ok ⟨pid, PyVal.none, PyVal.none, PyVal.none, PyVal.none, "Red",
            ["Missing EPD file link"], [manualAdvisory]⟩
    ∧ (⟨pid, PyVal.none, PyVal.none, PyVal.none, PyVal.none, "Red",
        ["Missing EPD file link"], [manualAdvisory]⟩ : ScanResultRow) ∈ out.results
    ∧ out.high = (out.results.filter (fun r => r.risk_level == "Red")).length := by
  refine ⟨?_, create_scan_mem_missing catalog pid hmiss pids out hmem hscan,
    create_scan_high_counts_red catalog pids out hscan⟩
  rw [hmiss]
  rfl

/-- C10 witness: scanning the unknown identifier "2" against a one-product
catalog persists the Red missing-link row and counts it as high risk. -/
theorem c10_witness :
    buildScanRow "2"
        ((find_product_by_id [PyDict.cons "id" (.int 1) PyDict.nil] "2").getD PyDict.nil)
        = .ok ⟨"2", PyVal.none, PyVal.none, PyVal.none, PyVal.none, "Red",
            ["Missing EPD file link"], [manualAdvisory]⟩
    ∧ (⟨"2", PyVal.none, PyVal.none, PyVal.none, PyVal.none, "Red",
        ["Missing EPD file link"], [manualAdvisory]⟩ : ScanResultRow)
        ∈ ((⟨[⟨"2", PyVal.none, PyVal.none, PyVal.none, PyVal.none, "Red",
              ["Missing EPD file link"], [manualAdvisory]⟩], 1, 0, 0⟩ : ScanOutcome)).results
    ∧ ((⟨[⟨"2", PyVal.none, PyVal.none, PyVal.none, PyVal.none, "Red",
          ["Missing EPD file link"], [manualAdvisory]⟩], 1, 0, 0⟩ : ScanOutcome)).high
        = (((⟨[⟨"2", PyVal.none, PyVal.none, PyVal.none, PyVal.none, "Red",
              ["Missing EPD file link"], [manualAdvisory]⟩], 1, 0, 0⟩ : ScanOutcome)).results.filter
            (fun r => r.risk_level == "Red")).length :=
  c10_unknown_id_persisted_red [PyDict.cons "id" (.int 1) PyDict.nil] "2" rfl
    ["2"] (List.mem_cons_self "2" []) _ rfl
